import Mathlib

/-!
# Verification of the Volcanoes event-cancellation core

A shallow embedding of the event cancellation / undo workflow of the
Volcanoes event-management repository, together with proofs of the
specified properties.

Modelling conventions:
* `datetime` values are integers (seconds); `datetime.now()` becomes an
  explicit `now : Int` argument threaded through each operation.
* `timedelta` values are integer second counts; `timedelta(minutes=10)`
  is `600`, `timedelta(hours=24)` worth of seconds is `86400`.
* Python's fractional `hours_until_event = total_seconds / 3600` is an
  exact rational (`Rat`).
* Raising an exception becomes returning `Except.error`; in-place
  mutation of an object becomes returning an updated copy, so a raise
  that happens before any assignment leaves the caller's state
  untouched by construction.
* The `EventCancellationManager` is modelled as constructed with its
  default `None` collaborators (`permission_service`,
  `notification_service`, `feed_service` all absent), which selects the
  default code path at each `if self.xxx_service:` guard: the built-in
  permission rule, simulated notifications reporting count `0`, and
  simulated feed updates reporting success.
-/

deriving instance DecidableEq for Except

/-- Event record (`src/models/event.py`).  The Python class has no
`canceled_by` attribute of its own; `EventCancellationManager` assigns
it dynamically, so it is modelled as an `Option` field that starts out
`none`. -/
structure Event where
  id : String
  title : String
  description : String
  starts_at : Int
  ends_at : Int
  location : String
  organizer_id : String
  organizer_name : String
  status : String
  cancellation_reason : Option String
  canceled_at : Option Int
  canceled_by : Option String
deriving DecidableEq, Repr

/-- `Event.cancel` (`src/models/event.py` lines 33-37): mark the event
as canceled.  It sets status, reason and timestamp only (the class has
no `canceled_by`). -/
def Event.cancel (e : Event) (reason : String) (canceled_at : Int) : Event :=
  { e with status := "CANCELED"
           cancellation_reason := some reason
           canceled_at := some canceled_at }

/-- User record (`src/models/user.py`).  The constructor rejects roles
outside student/teacher; the core only reads `user_id` and `role`. -/
structure User where
  name : String
  email : String
  user_id : String
  role : String
deriving DecidableEq, Repr

/-- RSVP record (`src/models/rsvp.py`). -/
structure RSVP where
  id : String
  event_id : String
  student_id : String
  student_name : String
  student_email : String
  status : String
  created_at : Int
deriving DecidableEq, Repr

/-- One entry of the cancellation-history dict `previous_state`
(`src/services/event_cancellation_manager.py` lines 61-67). -/
structure CancellationRecord where
  status : String
  canceled_at : Option Int
  canceled_by : Option String
  cancellation_reason : Option String
  timestamp : Int
deriving DecidableEq, Repr

/-- The mutable state of `EventCancellationManager`: the
`_cancellation_history` dict, keyed by event id. -/
structure EventCancellationManager where
  history : List (String × CancellationRecord)
deriving DecidableEq, Repr

/-- Dict lookup `self._cancellation_history.get(event_id)`. -/
def lookupRecord (h : List (String × CancellationRecord)) (k : String) :
    Option CancellationRecord :=
  (h.find? (fun p => p.1 == k)).map (fun p => p.2)

/-- Dict assignment `self._cancellation_history[event.id] = previous_state`
(replaces any stale record for the same key). -/
def insertRecord (h : List (String × CancellationRecord)) (k : String)
    (v : CancellationRecord) : List (String × CancellationRecord) :=
  (k, v) :: h.filter (fun p => ¬ p.1 = k)

/-- Dict deletion `del self._cancellation_history[event.id]`. -/
def eraseRecord (h : List (String × CancellationRecord)) (k : String) :
    List (String × CancellationRecord) :=
  h.filter (fun p => ¬ p.1 = k)

/-- The distinct `CancellationError` raise sites of
`src/services/event_cancellation_manager.py`, one constructor per raise,
carrying the values interpolated into each message.  `timestampNone`
models the uncaught `TypeError` Python would raise in `undo_cancel` when
`event.canceled_at` is `None` (the subtraction `now - None` crashes). -/
inductive CancellationError where
  | permissionDenied (user_id event_id : String)
  | alreadyCanceled (event_id : String)
  | notCanceled (event_id : String)
  | noHistory (event_id : String)
  | undoExpired (minutesElapsed : Int)
  | undoPermissionDenied (user_id : String)
  | timestampNone
deriving DecidableEq, Repr

/-- `EventCancellationManager._check_permission` (lines 181-203), in the
default path where no `permission_service` was injected: organizer check
first, then teacher role.  The `hasattr` guards are always true for the
modelled `Event`/`User` records, whose fields always exist. -/
def check_permission (event : Event) (user : User) : Bool :=
  if event.organizer_id == user.user_id then true
  else if user.role == "teacher" then true
  else false

/-- Result dict of `cancel_event` (lines 82-91). -/
structure CancelResult where
  success : Bool
  event_id : String
  canceled_by : String
  canceled_at : Int
  reason : Option String
  notifications_sent : Nat
  removed_from_feed : Bool
  message : String
deriving DecidableEq, Repr

/-- Result dict of `undo_cancel` (lines 162-172). -/
structure UndoResult where
  success : Bool
  event_id : String
  restored_by : String
  restored_at : Int
  restored_status : String
  time_elapsed_seconds : Int
  notifications_sent : Nat
  added_to_feed : Bool
  message : String
deriving DecidableEq, Repr

/-- `EventCancellationManager.cancel_event` (lines 35-98).  Checks are
performed in source order: permission, already-canceled, then the
history record is stored, the event mutated, and the (simulated,
count-0) notification and feed side effects reported.  Both
`datetime.now()` calls are the single instant `now`. -/
def cancel_event (m : EventCancellationManager) (event : Event) (user : User)
    (reason : Option String) (now : Int) :
    Except CancellationError (EventCancellationManager × Event × CancelResult) :=
  if check_permission event user = false then
    .error (.permissionDenied user.user_id event.id)
  else if event.status = "CANCELED" then
    .error (.alreadyCanceled event.id)
  else
    let previous_state : CancellationRecord :=
      { status := event.status
        canceled_at := none
        canceled_by := none
        cancellation_reason := none
        timestamp := now }
    let m' : EventCancellationManager :=
      ⟨insertRecord m.history event.id previous_state⟩
    let event' : Event :=
      { event with status := "CANCELED"
                   canceled_at := some now
                   canceled_by := some user.user_id
                   cancellation_reason := reason }
    .ok (m', event',
      { success := true
        event_id := event.id
        canceled_by := user.user_id
        canceled_at := now
        reason := reason
        notifications_sent := 0
        removed_from_feed := true
        message := "Event " ++ event.id ++ " has been successfully canceled" })

/-- `EventCancellationManager.undo_cancel` (lines 100-179).  Source
order: not-canceled check, history check, 10-minute window on
`now - event.canceled_at` (the error message reports
`time_elapsed.seconds // 60`, i.e. the mod-one-day seconds divided by 60),
permission, then restore the previous status, clear the metadata,
delete the history record and report the result. -/
def undo_cancel (m : EventCancellationManager) (event : Event) (user : User)
    (now : Int) :
    Except CancellationError (EventCancellationManager × Event × UndoResult) :=
  if ¬ event.status = "CANCELED" then
    .error (.notCanceled event.id)
  else
    match lookupRecord m.history event.id with
    | none => .error (.noHistory event.id)
    | some previous_state =>
      match event.canceled_at with
      | none => .error .timestampNone
      | some cancellation_time =>
        let time_elapsed := now - cancellation_time
        if time_elapsed > 600 then
          .error (.undoExpired (time_elapsed % 86400 / 60))
        else if check_permission event user = false then
          .error (.undoPermissionDenied user.user_id)
        else
          let event' : Event :=
            { event with status := previous_state.status
                         canceled_at := none
                         canceled_by := none
                         cancellation_reason := none }
          let m' : EventCancellationManager := ⟨eraseRecord m.history event.id⟩
          .ok (m', event',
            { success := true
              event_id := event.id
              restored_by := user.user_id
              restored_at := now
              restored_status := previous_state.status
              time_elapsed_seconds := time_elapsed % 86400
              notifications_sent := 0
              added_to_feed := true
              message := "Event " ++ event.id ++ " cancellation has been undone" })

/-- `EventCancellationManager.can_undo` (lines 311-334): returns a
`(bool, reason)` pair, checking canceled status, history presence,
timestamp presence and the 10-minute window, in that order. -/
def can_undo (m : EventCancellationManager) (event : Event) (now : Int) :
    Bool × String :=
  if ¬ event.status = "CANCELED" then
    (false, "Event is not canceled")
  else if (lookupRecord m.history event.id).isNone then
    (false, "No cancellation history found")
  else
    match event.canceled_at with
    | none => (false, "Cancellation timestamp not found")
    | some t =>
      let time_elapsed := now - t
      if time_elapsed > 600 then
        (false, "Time window expired (" ++ toString (time_elapsed % 86400 / 60)
          ++ " minutes)")
      else
        (true, "Can be undone")

/-- `hours_until_event = (event.starts_at - now).total_seconds() / 3600`
(`src/services/event_cancellation_service.py` lines 67-69 and 133-135),
as an exact rational number of hours. -/
def hoursUntilEvent (starts_at now : Int) : Rat :=
  ((starts_at - now : Int) : Rat) / 3600

/-- One-decimal rendering of an hour count, modelling the
`f"{hours_until_event:.1f}"` interpolation in the validator messages:
the value in tenths, rounded, printed with one digit after the point. -/
def fmtHours (h : Rat) : String :=
  let t : Int := round (h * 10)
  (if t < 0 then "-" else "") ++ toString (t.natAbs / 10) ++ "."
    ++ toString (t.natAbs % 10)

/-- Message of the `ValidationError` raised for a late cancellation with
a blank reason (lines 85-88). -/
def lateReasonRequiredMsg (h : Rat) : String :=
  "Cancellation reason is required for events starting in less than 24 hours. "
    ++ "This event starts in " ++ fmtHours h ++ " hours."

/-- Success message for a late cancellation with a reason (lines 91-94). -/
def lateValidatedMsg (h : Rat) (reason : String) : String :=
  "Late cancellation validated. Event starts in " ++ fmtHours h
    ++ " hours. Reason provided: " ++ reason.take 50 ++ "..."

/-- Success message for an early cancellation with a reason (lines 97-99). -/
def earlyWithReasonMsg (h : Rat) (reason : String) : String :=
  "Cancellation validated. Event starts in " ++ fmtHours h
    ++ " hours. Reason: " ++ reason.take 50 ++ "..."

/-- Success message for an early cancellation without a reason
(lines 102-104). -/
def earlyNoReasonMsg (h : Rat) : String :=
  "Cancellation validated. Event starts in " ++ fmtHours h
    ++ " hours. No reason required (more than 24 hours notice)."

/-- The `ValidationError` exception of
`src/services/event_cancellation_service.py`, carrying its message. -/
structure ValidationError where
  message : String
deriving DecidableEq, Repr

/-- The validation-result dict (lines 74-79). -/
structure ValidationResult where
  valid : Bool
  is_late_cancellation : Bool
  hours_until_event : Rat
  message : String
deriving DecidableEq, Repr

/-- `EventCancellationService.validate_cancellation_reason` (lines
44-107).  Pure: it reads `event.starts_at` only and never produces a
modified event.  `not reason or reason.strip() == ''` becomes
`reason = "" ∨ reason.trim = ""`; the dict that the source mutates to
`valid=False` just before raising is never returned, so every returned
result has `valid = true`. -/
def validate_cancellation_reason (event : Event) (reason : String) (now : Int) :
    Except ValidationError ValidationResult :=
  let hours_until_event := hoursUntilEvent event.starts_at now
  let is_late_cancellation : Bool := decide (hours_until_event < 24)
  if is_late_cancellation then
    if reason = "" ∨ reason.trim = "" then
      .error ⟨lateReasonRequiredMsg hours_until_event⟩
    else
      .ok { valid := true
            is_late_cancellation := is_late_cancellation
            hours_until_event := hours_until_event
            message := lateValidatedMsg hours_until_event reason }
  else
    if ¬ reason = "" ∧ ¬ reason.trim = "" then
      .ok { valid := true
            is_late_cancellation := is_late_cancellation
            hours_until_event := hours_until_event
            message := earlyWithReasonMsg hours_until_event reason }
    else
      .ok { valid := true
            is_late_cancellation := is_late_cancellation
            hours_until_event := hours_until_event
            message := earlyNoReasonMsg hours_until_event }

/-- A `NotificationLog` entry (`src/utils/notification_utils.py`). -/
structure NotificationLog where
  student_id : String
  student_name : String
  student_email : String
  event_id : String
  event_title : String
  notification_type : String
  sent_at : Int
  urgent : Bool
deriving DecidableEq, Repr

/-- `NotificationService.send_cancellation_email`
(`src/utils/notification_utils.py`): the simulated transport logs the
email text and always reports success. -/
def send_cancellation_email (_student_email _student_name _event_title : String)
    (_event_starts_at : Int) (_cancellation_reason : String) (_urgent : Bool) :
    Bool :=
  true

/-- `RSVPService.get_event_rsvps` (`src/services/rsvp_service.py` lines
19-32): the RSVPs of one event, restricted to status CONFIRMED, in
store insertion order. -/
def get_event_rsvps (rsvps : List RSVP) (event_id : String) : List RSVP :=
  rsvps.filter (fun r => r.event_id == event_id && r.status == "CONFIRMED")

/-- The state of `EventCancellationService` that
`notify_rsvp_cancellation` touches: the injected `RSVPService` store and
the `NotificationService` log list. -/
structure EventCancellationService where
  rsvps : List RSVP
  notification_logs : List NotificationLog
deriving DecidableEq, Repr

/-- Result dict of `notify_rsvp_cancellation` (lines 174-183). -/
structure NotifyResult where
  event_id : String
  event_title : String
  rsvp_count : Nat
  notifications_sent : Nat
  urgent : Bool
  hours_until_event : Rat
  notified_students : List String
  timestamp : Int
deriving DecidableEq, Repr

/-- The log entry built for one RSVP inside the notification loop
(lines 159-168). -/
def cancellationLogEntry (event : Event) (now : Int) (urgent_flag : Bool)
    (r : RSVP) : NotificationLog :=
  { student_id := r.student_id
    student_name := r.student_name
    student_email := r.student_email
    event_id := event.id
    event_title := event.title
    notification_type := "CANCELLATION"
    sent_at := now
    urgent := urgent_flag }

/-- `EventCancellationService.notify_rsvp_cancellation` (lines 109-183).
For each confirmed RSVP the simulated email is sent and, on success
(always, per `send_cancellation_email`), a log entry is appended, the
student id collected and the sent counter bumped.  The fold carries
`(appended logs, notified ids, sent count)` exactly as the loop does. -/
def notify_rsvp_cancellation (svc : EventCancellationService) (event : Event)
    (now : Int) : EventCancellationService × NotifyResult :=
  let hours_until_event := hoursUntilEvent event.starts_at now
  let urgent_flag : Bool := decide (hours_until_event < 24)
  let rsvps := get_event_rsvps svc.rsvps event.id
  let acc := rsvps.foldl
    (fun (acc : List NotificationLog × List String × Nat) r =>
      if send_cancellation_email r.student_email r.student_name event.title
          event.starts_at (event.cancellation_reason.getD "No reason provided")
          urgent_flag then
        (acc.1 ++ [cancellationLogEntry event now urgent_flag r],
         acc.2.1 ++ [r.student_id], acc.2.2 + 1)
      else acc)
    ([], [], 0)
  (⟨svc.rsvps, svc.notification_logs ++ acc.1⟩,
   { event_id := event.id
     event_title := event.title
     rsvp_count := rsvps.length
     notifications_sent := acc.2.2
     urgent := urgent_flag
     hours_until_event := hours_until_event
     notified_students := acc.2.1
     timestamp := now })

/-- `FeedService.add_event` (`src/models/feed_service.py` lines 12-20):
appends the event to the feed unless its status is CANCELED.  No
membership check is made before appending. -/
def add_event (feed : List Event) (event : Event) : List Event :=
  if ¬ event.status = "CANCELED" then feed ++ [event] else feed

/-- `FeedService.remove_event` (`src/models/feed_service.py` lines
22-30): removes the first occurrence of the event when present,
otherwise does nothing. -/
def remove_event (feed : List Event) (event : Event) : List Event :=
  if event ∈ feed then feed.erase event else feed

/-! Concrete fixtures used by the witness and counterexample theorems. -/

/-- A scheduled event one hour (3600 s) after instant 0, organized by
user `u1`. -/
def evSched : Event :=
  { id := "e1"
    title := "Review"
    description := "Calc review"
    starts_at := 3600
    ends_at := 7200
    location := "Hall 1"
    organizer_id := "u1"
    organizer_name := "Olivia"
    status := "SCHEDULED"
    cancellation_reason := none
    canceled_at := none
    canceled_by := none }

/-- The same event starting 100 hours (360000 s) after instant 0. -/
def evFar : Event :=
  { evSched with
    starts_at := 360000
    ends_at := 363600 }

/-- The organizer of `evSched`, a student. -/
def uOrganizer : User :=
  { name := "Olivia"
    email := "olivia@xavier.edu"
    user_id := "u1"
    role := "student" }

/-- A student who is neither teacher nor organizer of `evSched`. -/
def uStranger : User :=
  { name := "Sam"
    email := "sam@xavier.edu"
    user_id := "u2"
    role := "student" }

/-- `evSched` after a completed cancellation at instant 0 by `u1` with
reason `"sick"`. -/
def evAfterCancel : Event :=
  { evSched with
    status := "CANCELED"
    cancellation_reason := some "sick"
    canceled_at := some 0
    canceled_by := some "u1" }

/-- `evSched` canceled at instant 0 by `u1` with no reason given. -/
def evNoReason : Event :=
  { evSched with
    status := "CANCELED"
    cancellation_reason := none
    canceled_at := some 0
    canceled_by := some "u1" }

/-- A manager with empty cancellation history. -/
def mgrEmpty : EventCancellationManager := ⟨[]⟩

/-- The history record stored when `evSched` is canceled at instant 0. -/
def recSched : CancellationRecord :=
  { status := "SCHEDULED"
    canceled_at := none
    canceled_by := none
    cancellation_reason := none
    timestamp := 0 }

/-- The manager state after canceling `evSched` at instant 0. -/
def mgrAfterCancel : EventCancellationManager := ⟨[("e1", recSched)]⟩

/-- The result of `cancel_event mgrEmpty evSched uOrganizer (some "sick") 0`. -/
def cancelResultSick : CancelResult :=
  { success := true
    event_id := "e1"
    canceled_by := "u1"
    canceled_at := 0
    reason := some "sick"
    notifications_sent := 0
    removed_from_feed := true
    message := "Event e1 has been successfully canceled" }

/-- The result of `cancel_event mgrEmpty evSched uOrganizer none 0`. -/
def cancelResultNoReason : CancelResult :=
  { cancelResultSick with reason := none }

/-- The result of `undo_cancel mgrAfterCancel evAfterCancel uOrganizer 60`. -/
def undoResultAt60 : UndoResult :=
  { success := true
    event_id := "e1"
    restored_by := "u1"
    restored_at := 60
    restored_status := "SCHEDULED"
    time_elapsed_seconds := 60
    notifications_sent := 0
    added_to_feed := true
    message := "Event e1 cancellation has been undone" }

/-- A confirmed RSVP of student `s1` for event `e1`. -/
def rsvpAlice : RSVP :=
  { id := "r1"
    event_id := "e1"
    student_id := "s1"
    student_name := "Alice"
    student_email := "alice@xavier.edu"
    status := "CONFIRMED"
    created_at := 0 }

/-- A confirmed RSVP of student `s2` for event `e1`, added after a
canceled one. -/
def rsvpBob : RSVP :=
  { id := "r2"
    event_id := "e1"
    student_id := "s2"
    student_name := "Bob"
    student_email := "bob@xavier.edu"
    status := "CONFIRMED"
    created_at := 10 }

/-- A canceled RSVP for event `e1` (excluded from notifications). -/
def rsvpCarol : RSVP :=
  { id := "r3"
    event_id := "e1"
    student_id := "s3"
    student_name := "Carol"
    student_email := "carol@xavier.edu"
    status := "CANCELED"
    created_at := 5 }

/-- A confirmed RSVP for a different event `e9`. -/
def rsvpOther : RSVP :=
  { id := "r4"
    event_id := "e9"
    student_id := "s4"
    student_name := "Dan"
    student_email := "dan@xavier.edu"
    status := "CONFIRMED"
    created_at := 7 }

/-- A service whose RSVP store holds two confirmed RSVPs for `e1`, one
canceled RSVP for `e1` and one RSVP for another event. -/
def svcStore : EventCancellationService :=
  { rsvps := [rsvpAlice, rsvpCarol, rsvpBob, rsvpOther]
    notification_logs := [] }

/-- The validation result returned for `evFar` (100 hours away) with an
empty reason. -/
def validResultFar : ValidationResult :=
  { valid := true
    is_late_cancellation := false
    hours_until_event := 100
    message := earlyNoReasonMsg 100 }

/-! Helper lemmas about the history dict and the operations. -/

theorem lookupRecord_insertRecord (h : List (String × CancellationRecord))
    (k : String) (v : CancellationRecord) :
    lookupRecord (insertRecord h k v) k = some v := by
  simp [lookupRecord, insertRecord]

theorem find?_filter_ne_none (h : List (String × CancellationRecord))
    (k : String) :
    (h.filter (fun p => ¬ p.1 = k)).find? (fun p => p.1 == k) = none := by
  induction h with
  | nil => rfl
  | cons p ps ih =>
    by_cases hp : p.1 = k
    · simp [List.filter_cons, hp, ih]
    · simp [List.filter_cons, hp, List.find?_cons, ih]

theorem lookupRecord_eraseRecord (h : List (String × CancellationRecord))
    (k : String) :
    lookupRecord (eraseRecord h k) k = none := by
  simp [lookupRecord, eraseRecord, find?_filter_ne_none]

/-- Characterisation of a successful `cancel_event`: it succeeds exactly
when the actor has permission and the event is not already canceled, and
then produces precisely the new history, the canceled event and the
result record written by the source. -/
theorem cancel_event_ok_iff (m : EventCancellationManager) (e : Event)
    (u : User) (reason : Option String) (t : Int)
    (out : EventCancellationManager × Event × CancelResult) :
    cancel_event m e u reason t = .ok out ↔
      check_permission e u = true ∧ ¬ e.status = "CANCELED" ∧
      out = (⟨insertRecord m.history e.id
               { status := e.status
                 canceled_at := none
                 canceled_by := none
                 cancellation_reason := none
                 timestamp := t }⟩,
             { e with
               status := "CANCELED"
               canceled_at := some t
               canceled_by := some u.user_id
               cancellation_reason := reason },
             { success := true
               event_id := e.id
               canceled_by := u.user_id
               canceled_at := t
               reason := reason
               notifications_sent := 0
               removed_from_feed := true
               message := "Event " ++ e.id ++ " has been successfully canceled" }) := by
  unfold cancel_event
  split_ifs with h1 h2
  · simp_all
  · simp_all
  · simp_all
    exact eq_comm

/-- Characterisation of a successful `undo_cancel`: it succeeds exactly
when the event is canceled, a history record and a cancellation
timestamp exist, the 10-minute window has not expired and the actor has
permission; the outputs are the restored event, the history without the
record, and the result record of the source. -/
theorem undo_cancel_ok_iff (m : EventCancellationManager) (e : Event)
    (u : User) (t : Int)
    (out : EventCancellationManager × Event × UndoResult) :
    undo_cancel m e u t = .ok out ↔
      e.status = "CANCELED" ∧
      ∃ prev t0, lookupRecord m.history e.id = some prev ∧
        e.canceled_at = some t0 ∧ ¬ t - t0 > 600 ∧
        check_permission e u = true ∧
        out = (⟨eraseRecord m.history e.id⟩,
               { e with
                 status := prev.status
                 canceled_at := none
                 canceled_by := none
                 cancellation_reason := none },
               { success := true
                 event_id := e.id
                 restored_by := u.user_id
                 restored_at := t
                 restored_status := prev.status
                 time_elapsed_seconds := (t - t0) % 86400
                 notifications_sent := 0
                 added_to_feed := true
                 message := "Event " ++ e.id ++ " cancellation has been undone" }) := by
  unfold undo_cancel
  by_cases h1 : e.status = "CANCELED"
  · simp only [h1, not_true_eq_false, if_false]
    cases hrec : lookupRecord m.history e.id with
    | none => simp [hrec]
    | some prev =>
      cases hca : e.canceled_at with
      | none => simp [hca]
      | some t0 =>
        by_cases h2 : t - t0 > 600
        · simp [hrec, hca, h2]
          intro hle
          exact absurd hle (by omega)
        · have h2n : ¬ 600 < t - t0 := by omega
          have h2' : t ≤ 600 + t0 := by omega
          by_cases h3 : check_permission e u = true
          · simp [hrec, hca, h2n, h2', h3]
            exact eq_comm
          · have h3' : check_permission e u = false := by
              cases hcp : check_permission e u
              · rfl
              · exact absurd hcp h3
            simp [hrec, hca, h2n, h2', h3', h3]
  · simp [h1]

/-- Accumulation law for the notification loop once the always-true
send is removed: the fold appends one log entry and one student id per
RSVP and counts each of them. -/
theorem foldl_notify_step (f : RSVP → NotificationLog) (l : List RSVP) :
    ∀ (a : List NotificationLog) (b : List String) (n : Nat),
      l.foldl
        (fun acc r => (acc.1 ++ [f r], acc.2.1 ++ [r.student_id], acc.2.2 + 1))
        (a, b, n) =
      (a ++ l.map f, b ++ l.map RSVP.student_id, n + l.length) := by
  induction l with
  | nil => intro a b n; simp
  | cons x xs ih =>
    intro a b n
    simp only [List.foldl_cons, List.map_cons, List.length_cons]
    rw [ih]
    simp only [Prod.mk.injEq, List.append_assoc, List.singleton_append]
    exact ⟨trivial, trivial, by omega⟩

/-- C1: for every event and actor permitted to cancel, a successful
`cancel_event` followed (within the 10-minute window) by `undo_cancel`
with the same actor and event succeeds and restores `event.status` to
its pre-cancellation value, with `cancellation_reason`, `canceled_at`
and `canceled_by` all reset to `none`. -/
theorem cancel_then_undo_restores (m : EventCancellationManager) (e : Event)
    (u : User) (reason : Option String) (t t' : Int)
    (hperm : check_permission e u = true) (hst : ¬ e.status = "CANCELED")
    (hw : t' - t ≤ 600) :
    ∃ m₁ e₁ r₁ m₂ e₂ r₂,
      cancel_event m e u reason t = .ok (m₁, e₁, r₁) ∧
      undo_cancel m₁ e₁ u t' = .ok (m₂, e₂, r₂) ∧
      e₂.status = e.status ∧ e₂.cancellation_reason = none ∧
      e₂.canceled_at = none ∧ e₂.canceled_by = none := by
  refine ⟨_, _, _, _, _, _,
    (cancel_event_ok_iff m e u reason t _).mpr ⟨hperm, hst, rfl⟩,
    (undo_cancel_ok_iff _ _ u t' _).mpr
      ⟨rfl,
       ⟨{ status := e.status
          canceled_at := none
          canceled_by := none
          cancellation_reason := none
          timestamp := t }, t,
        lookupRecord_insertRecord m.history e.id _, rfl, by omega, hperm, rfl⟩⟩,
    rfl, rfl, rfl, rfl⟩

/-- C1 witness: the concrete cancel/undo round trip on `evSched` by its
organizer, undone exactly at the window boundary. -/
theorem cancel_then_undo_restores_check :
    check_permission evSched uOrganizer = true ∧
    (¬ evSched.status = "CANCELED") ∧ ((600 : Int) - 0 ≤ 600) ∧
    ∃ m₁ e₁ r₁ m₂ e₂ r₂,
      cancel_event mgrEmpty evSched uOrganizer (some "sick") 0 = .ok (m₁, e₁, r₁) ∧
      undo_cancel m₁ e₁ uOrganizer 600 = .ok (m₂, e₂, r₂) ∧
      e₂.status = evSched.status ∧ e₂.cancellation_reason = none ∧
      e₂.canceled_at = none ∧ e₂.canceled_by = none :=
  ⟨by decide, by decide, by decide,
   cancel_then_undo_restores mgrEmpty evSched uOrganizer (some "sick") 0 600
     (by decide) (by decide) (by decide)⟩

/-- C2 counterexample: `cancel_event` called with `reason = None` (the
default) succeeds and leaves the event with `status = CANCELED` while
`cancellation_reason` is absent, refuting the claimed "metadata present
iff CANCELED" invariant for the reason field. -/
theorem canceled_event_with_absent_reason :
    cancel_event mgrEmpty evSched uOrganizer none 0 =
      .ok (mgrAfterCancel, evNoReason, cancelResultNoReason) ∧
    evNoReason.status = "CANCELED" ∧ evNoReason.cancellation_reason = none := by
  decide

/-- C2 (amended): a successful `cancel_event` sets `status = CANCELED`
with `canceled_at` and `canceled_by` both present and
`cancellation_reason` equal to the caller's reason argument (which may
be `none`); a successful `undo_cancel` clears all three metadata fields
to `none`.  The present-iff-CANCELED invariant therefore holds for
`canceled_at` and `canceled_by` but not for `cancellation_reason`. -/
theorem cancellation_metadata_after_operations (m : EventCancellationManager)
    (e : Event) (u : User) (reason : Option String) (t : Int)
    (m₁ : EventCancellationManager) (e₁ : Event) (r₁ : CancelResult)
    (m₂ : EventCancellationManager) (e₂ : Event) (r₂ : UndoResult) :
    (cancel_event m e u reason t = .ok (m₁, e₁, r₁) →
      e₁.status = "CANCELED" ∧ e₁.canceled_at = some t ∧
      e₁.canceled_by = some u.user_id ∧ e₁.cancellation_reason = reason) ∧
    (undo_cancel m e u t = .ok (m₂, e₂, r₂) →
      e₂.cancellation_reason = none ∧ e₂.canceled_at = none ∧
      e₂.canceled_by = none) := by
  constructor
  · intro h
    rw [cancel_event_ok_iff] at h
    obtain ⟨-, -, hout⟩ := h
    simp only [Prod.mk.injEq] at hout
    obtain ⟨-, he, -⟩ := hout
    subst he
    exact ⟨rfl, rfl, rfl, rfl⟩
  · intro h
    rw [undo_cancel_ok_iff] at h
    obtain ⟨-, prev, t0, -, -, -, -, hout⟩ := h
    simp only [Prod.mk.injEq] at hout
    obtain ⟨-, he, -⟩ := hout
    subst he
    exact ⟨rfl, rfl, rfl⟩

/-- C2 (amended) witness: the concrete cancel of `evSched` and the
concrete undo of `evAfterCancel`. -/
theorem cancellation_metadata_after_operations_check :
    (evAfterCancel.status = "CANCELED" ∧ evAfterCancel.canceled_at = some 0 ∧
     evAfterCancel.canceled_by = some "u1" ∧
     evAfterCancel.cancellation_reason = some "sick") ∧
    (evSched.cancellation_reason = none ∧ evSched.canceled_at = none ∧
     evSched.canceled_by = none) :=
  ⟨(cancellation_metadata_after_operations mgrEmpty evSched uOrganizer
      (some "sick") 0 mgrAfterCancel evAfterCancel cancelResultSick
      mgrEmpty evSched undoResultAt60).1 (by decide),
   (cancellation_metadata_after_operations mgrAfterCancel evAfterCancel
      uOrganizer none 60 mgrAfterCancel evAfterCancel cancelResultSick
      mgrEmpty evSched undoResultAt60).2 (by decide)⟩

/-- C3: if the event starts in fewer than 24 hours, a blank reason makes
`validate_cancellation_reason` fail with the `ValidationError` whose
message states the hour count; if it starts 24 or more hours away, the
call never fails, whatever the reason, and the returned
`is_late_cancellation` field equals `hours_until_event < 24`.  The
function is pure, so the event is never modified. -/
theorem late_requires_reason_early_never_raises (e : Event) (reason : String)
    (now : Int) :
    (hoursUntilEvent e.starts_at now < 24 → (reason = "" ∨ reason.trim = "") →
      validate_cancellation_reason e reason now =
        .error ⟨lateReasonRequiredMsg (hoursUntilEvent e.starts_at now)⟩) ∧
    (24 ≤ hoursUntilEvent e.starts_at now →
      (validate_cancellation_reason e reason now).toOption.map
          ValidationResult.is_late_cancellation =
        some (decide (hoursUntilEvent e.starts_at now < 24))) := by
  constructor
  · intro hlt hblank
    rcases hblank with hb | hb
    · simp [validate_cancellation_reason, hlt, hb]
    · simp [validate_cancellation_reason, hlt, hb]
  · intro hge
    have hnlt : ¬ hoursUntilEvent e.starts_at now < 24 := not_lt.mpr hge
    by_cases hr : ¬ reason = "" ∧ ¬ reason.trim = ""
    · simp [validate_cancellation_reason, hnlt, hr, Except.toOption]
    · simp [validate_cancellation_reason, hnlt, hr, Except.toOption]

/-- C3 witness: `evSched` is 1 hour away, so a blank reason is rejected
with the hour count in the message; `evFar` is 100 hours away, so even a
blank reason passes and `is_late_cancellation` is false. -/
theorem late_requires_reason_early_never_raises_check :
    (hoursUntilEvent evSched.starts_at 0 < 24) ∧
    (24 ≤ hoursUntilEvent evFar.starts_at 0) ∧
    validate_cancellation_reason evSched "" 0 =
      .error ⟨lateReasonRequiredMsg (hoursUntilEvent evSched.starts_at 0)⟩ ∧
    (validate_cancellation_reason evFar "" 0).toOption.map
        ValidationResult.is_late_cancellation =
      some (decide (hoursUntilEvent evFar.starts_at 0 < 24)) :=
  ⟨by norm_num [hoursUntilEvent, evSched],
   by norm_num [hoursUntilEvent, evFar, evSched],
   (late_requires_reason_early_never_raises evSched "" 0).1
     (by norm_num [hoursUntilEvent, evSched]) (Or.inl rfl),
   (late_requires_reason_early_never_raises evFar "" 0).2
     (by norm_num [hoursUntilEvent, evFar, evSched])⟩

/-- C4: the shared permission rule grants exactly to a teacher or to the
event's organizer, and a denied actor's `cancel_event` fails with the
permission error (raised before any state is written, so the event and
history are unchanged). -/
theorem permission_policy_and_denial (m : EventCancellationManager) (e : Event)
    (u : User) (reason : Option String) (t : Int) :
    check_permission e u = (u.role == "teacher" || u.user_id == e.organizer_id) ∧
    (check_permission e u = false →
      cancel_event m e u reason t = .error (.permissionDenied u.user_id e.id)) := by
  constructor
  · by_cases h1 : e.organizer_id = u.user_id
    · by_cases h2 : u.role = "teacher" <;> simp [check_permission, h1, h2]
    · have h1' : ¬ u.user_id = e.organizer_id := fun h => h1 h.symm
      by_cases h2 : u.role = "teacher" <;> simp [check_permission, h1, h1', h2]
  · intro h
    simp [cancel_event, h]

/-- C4 witness: `uStranger` (student, not the organizer) is denied and
gets the permission error from `cancel_event` on `evSched`. -/
theorem permission_policy_and_denial_check :
    check_permission evSched uStranger =
      (uStranger.role == "teacher" || uStranger.user_id == evSched.organizer_id) ∧
    cancel_event mgrEmpty evSched uStranger none 0 =
      .error (.permissionDenied "u2" "e1") :=
  ⟨(permission_policy_and_denial mgrEmpty evSched uStranger none 0).1,
   (permission_policy_and_denial mgrEmpty evSched uStranger none 0).2 (by decide)⟩

/-- C5: `can_undo` is false for a non-canceled event; after a successful
cancellation at instant `t` it is true at any `t'` with `t' - t ≤ 600`
seconds and false for `t' - t > 600`, in which case `undo_cancel` fails
with the undo-expired error reporting the elapsed minutes and the event
stays CANCELED.  The window is anchored at the cancellation instant `t`
stored in `canceled_at`, not at the undo attempt. -/
theorem undo_window_behavior (m : EventCancellationManager) (e : Event)
    (u : User) (reason : Option String) (t t' : Int)
    (m₁ : EventCancellationManager) (e₁ : Event) (r₁ : CancelResult) :
    (¬ e.status = "CANCELED" → (can_undo m e t).1 = false) ∧
    (cancel_event m e u reason t = .ok (m₁, e₁, r₁) →
      (t' - t ≤ 600 → (can_undo m₁ e₁ t').1 = true) ∧
      (t' - t > 600 →
        (can_undo m₁ e₁ t').1 = false ∧
        undo_cancel m₁ e₁ u t' =
          .error (.undoExpired ((t' - t) % 86400 / 60)) ∧
        e₁.status = "CANCELED")) := by
  constructor
  · intro h
    simp [can_undo, h]
  · intro hc
    rw [cancel_event_ok_iff] at hc
    obtain ⟨hperm, hst, hout⟩ := hc
    simp only [Prod.mk.injEq] at hout
    obtain ⟨hm, he, -⟩ := hout
    subst hm
    subst he
    constructor
    · intro hle
      have hn : ¬ (t' - t > 600) := by omega
      simp [can_undo, lookupRecord_insertRecord, hn]
    · intro hgt
      refine ⟨?_, ?_, rfl⟩
      · simp [can_undo, lookupRecord_insertRecord, hgt]
      · simp [undo_cancel, lookupRecord_insertRecord, hgt]

/-- C5 witness: `can_undo` is false on the fresh `evSched`, true 600 s
after the concrete cancellation, false at 601 s, where `undo_cancel`
fails with the expired error (10 minutes reported) and the event stays
CANCELED. -/
theorem undo_window_behavior_check :
    ((can_undo mgrEmpty evSched 0).1 = false) ∧
    ((can_undo mgrAfterCancel evAfterCancel 600).1 = true) ∧
    ((can_undo mgrAfterCancel evAfterCancel 601).1 = false ∧
     undo_cancel mgrAfterCancel evAfterCancel uOrganizer 601 =
       .error (.undoExpired ((601 - 0) % 86400 / 60)) ∧
     evAfterCancel.status = "CANCELED") :=
  ⟨(undo_window_behavior mgrEmpty evSched uOrganizer (some "sick") 0 600
      mgrAfterCancel evAfterCancel cancelResultSick).1 (by decide),
   ((undo_window_behavior mgrEmpty evSched uOrganizer (some "sick") 0 600
      mgrAfterCancel evAfterCancel cancelResultSick).2 (by decide)).1 (by decide),
   ((undo_window_behavior mgrEmpty evSched uOrganizer (some "sick") 0 601
      mgrAfterCancel evAfterCancel cancelResultSick).2 (by decide)).2 (by decide)⟩

/-- C6 counterexample: after the concrete successful undo, the
`CancellationRecord` for the event id is gone from the history (deleted
by `del`, not marked undone and retained), and a subsequent `can_undo`
probe for a canceled event with that id reports "No cancellation
history found" — there is no "already undone" report anywhere. -/
theorem undo_deletes_history_record_concrete :
    undo_cancel mgrAfterCancel evAfterCancel uOrganizer 60 =
      .ok (mgrEmpty, evSched, undoResultAt60) ∧
    lookupRecord mgrEmpty.history "e1" = none ∧
    can_undo mgrEmpty evAfterCancel 60 =
      (false, "No cancellation history found") := by
  decide

/-- C6 (amended): a successful `undo_cancel` deletes the
`CancellationRecord` for the event id from the history (no
undone_at/undone_by marking exists), so a subsequent `can_undo` for a
canceled event with that id reports "No cancellation history found". -/
theorem undo_deletes_history_record (m : EventCancellationManager) (e : Event)
    (u : User) (t : Int) (m' : EventCancellationManager) (e' : Event)
    (r : UndoResult) (h : undo_cancel m e u t = .ok (m', e', r)) :
    lookupRecord m'.history e.id = none ∧
    ∀ ec t₂, ec.id = e.id → ec.status = "CANCELED" →
      can_undo m' ec t₂ = (false, "No cancellation history found") := by
  rw [undo_cancel_ok_iff] at h
  obtain ⟨-, prev, t0, -, -, -, -, hout⟩ := h
  simp only [Prod.mk.injEq] at hout
  obtain ⟨hm, -, -⟩ := hout
  subst hm
  constructor
  · exact lookupRecord_eraseRecord m.history e.id
  · intro ec t₂ hid hst
    simp [can_undo, hst, hid, lookupRecord_eraseRecord]

/-- C6 (amended) witness: the concrete undo of `evAfterCancel`. -/
theorem undo_deletes_history_record_check :
    lookupRecord mgrEmpty.history evAfterCancel.id = none ∧
    can_undo mgrEmpty evAfterCancel 3600 =
      (false, "No cancellation history found") :=
  have h := undo_deletes_history_record mgrAfterCancel evAfterCancel uOrganizer
    60 mgrEmpty evSched undoResultAt60 (by decide)
  ⟨h.1, h.2 evAfterCancel 3600 rfl (by decide)⟩

/-- C7 counterexample: on an already-CANCELED event, an actor without
permission gets the permission error, not the already-canceled error, so
"any actor" in the claim is too strong. -/
theorem already_canceled_stranger_gets_permission_error :
    cancel_event mgrEmpty evAfterCancel uStranger none 3600 =
      .error (.permissionDenied "u2" "e1") ∧
    ¬ CancellationError.permissionDenied "u2" "e1" =
        CancellationError.alreadyCanceled "e1" := by
  decide

/-- C7 (amended): on an already-CANCELED event, `cancel_event` by an
actor *with permission* fails with the already-canceled error, and for
every actor it never succeeds, so the event fields and the stored
`CancellationRecord` are never touched. -/
theorem already_canceled_always_rejected (m : EventCancellationManager)
    (e : Event) (u : User) (reason : Option String) (t : Int)
    (hs : e.status = "CANCELED") :
    (check_permission e u = true →
      cancel_event m e u reason t = .error (.alreadyCanceled e.id)) ∧
    ∀ out, ¬ cancel_event m e u reason t = .ok out := by
  constructor
  · intro hp
    simp [cancel_event, hp, hs]
  · intro out h
    rw [cancel_event_ok_iff] at h
    exact h.2.1 hs

/-- C7 (amended) witness: the organizer's repeated cancel of
`evAfterCancel` is rejected with the already-canceled error and cannot
succeed. -/
theorem already_canceled_always_rejected_check :
    cancel_event mgrEmpty evAfterCancel uOrganizer none 3600 =
      .error (.alreadyCanceled "e1") ∧
    ¬ cancel_event mgrEmpty evAfterCancel uOrganizer none 3600 =
        .ok (mgrAfterCancel, evAfterCancel, cancelResultSick) :=
  have h := already_canceled_always_rejected mgrEmpty evAfterCancel uOrganizer
    none 3600 (by decide)
  ⟨h.1 (by decide), h.2 (mgrAfterCancel, evAfterCancel, cancelResultSick)⟩

/-- C8: `notify_rsvp_cancellation` reports `rsvp_count` and
`notifications_sent` both equal to the number of CONFIRMED RSVPs of the
event in the store (other statuses excluded), appends exactly one log
entry per such RSVP — each carrying the urgency flag
`hours_until_event < 24` — and lists the notified student ids in store
insertion order.  With zero confirmed RSVPs all counts are zero and the
id list is empty, with no error. -/
theorem notify_rsvp_counts_and_logs (svc : EventCancellationService)
    (event : Event) (now : Int) :
    (notify_rsvp_cancellation svc event now).2.rsvp_count =
        (get_event_rsvps svc.rsvps event.id).length ∧
    (notify_rsvp_cancellation svc event now).2.notifications_sent =
        (get_event_rsvps svc.rsvps event.id).length ∧
    (notify_rsvp_cancellation svc event now).2.notified_students =
        (get_event_rsvps svc.rsvps event.id).map RSVP.student_id ∧
    (notify_rsvp_cancellation svc event now).1.notification_logs =
        svc.notification_logs ++
          (get_event_rsvps svc.rsvps event.id).map
            (cancellationLogEntry event now
              (decide (hoursUntilEvent event.starts_at now < 24))) ∧
    (notify_rsvp_cancellation svc event now).2.urgent =
        decide (hoursUntilEvent event.starts_at now < 24) ∧
    ∀ lg ∈ (get_event_rsvps svc.rsvps event.id).map
        (cancellationLogEntry event now
          (decide (hoursUntilEvent event.starts_at now < 24))),
      lg.urgent = decide (hoursUntilEvent event.starts_at now < 24) := by
  have hfold := foldl_notify_step
    (cancellationLogEntry event now
      (decide (hoursUntilEvent event.starts_at now < 24)))
    (get_event_rsvps svc.rsvps event.id) [] [] 0
  refine ⟨?_, ?_, ?_, ?_, ?_, ?_⟩
  · simp [notify_rsvp_cancellation]
  · simp [notify_rsvp_cancellation, send_cancellation_email, hfold]
  · simp [notify_rsvp_cancellation, send_cancellation_email, hfold]
  · simp [notify_rsvp_cancellation, send_cancellation_email, hfold]
  · simp [notify_rsvp_cancellation]
  · intro lg hlg
    simp only [List.mem_map] at hlg
    obtain ⟨r, -, hr⟩ := hlg
    rw [← hr]
    rfl

/-- C8 witness: on the concrete store with two CONFIRMED RSVPs for
`e1`, one CANCELED RSVP for `e1` and one RSVP for another event, both
counts are 2, students `s1, s2` are notified in insertion order, and the
log entry built for `rsvpAlice` carries the computed urgency flag. -/
theorem notify_rsvp_counts_and_logs_check :
    (notify_rsvp_cancellation svcStore evSched 0).2.rsvp_count = 2 ∧
    (notify_rsvp_cancellation svcStore evSched 0).2.notified_students =
      ["s1", "s2"] ∧
    (cancellationLogEntry evSched 0
        (decide (hoursUntilEvent evSched.starts_at 0 < 24)) rsvpAlice).urgent =
      decide (hoursUntilEvent evSched.starts_at 0 < 24) :=
  have h := notify_rsvp_counts_and_logs svcStore evSched 0
  ⟨h.1.trans (by decide),
   h.2.2.1.trans (by decide),
   h.2.2.2.2.2 _ (List.mem_map_of_mem _ (by decide))⟩

/-- C9 counterexample: adding an event already present in the feed is
not a no-op — `add_event` appends unconditionally for non-CANCELED
events, leaving two occurrences. -/
theorem add_event_duplicates_present_event :
    add_event [evSched] evSched = [evSched, evSched] ∧
    ¬ add_event [evSched] evSched = [evSched] := by
  decide

/-- C9 (amended): `remove_event` of an absent event is a no-op and never
errors; `add_event` of a non-CANCELED event always appends it (even when
already present, producing a duplicate), and is a no-op only for
CANCELED events. -/
theorem feed_add_remove_behavior (feed : List Event) (e : Event) :
    (¬ e ∈ feed → remove_event feed e = feed) ∧
    (¬ e.status = "CANCELED" → add_event feed e = feed ++ [e]) ∧
    (e.status = "CANCELED" → add_event feed e = feed) := by
  refine ⟨?_, ?_, ?_⟩
  · intro h
    simp [remove_event, h]
  · intro h
    simp [add_event, h]
  · intro h
    simp [add_event, h]

/-- C9 (amended) witness: removing from an empty feed, adding the
scheduled event, and adding a canceled event. -/
theorem feed_add_remove_behavior_check :
    remove_event [] evSched = [] ∧
    add_event [] evSched = [] ++ [evSched] ∧
    add_event [] evAfterCancel = [] :=
  ⟨(feed_add_remove_behavior [] evSched).1 (by decide),
   (feed_add_remove_behavior [] evSched).2.1 (by decide),
   (feed_add_remove_behavior [] evAfterCancel).2.2 (by decide)⟩

/-- C10: whenever `validate_cancellation_reason` returns (rather than
raising), the returned result has `valid = true`; the `valid = False`
dict the source builds just before raising is never returned, so a
caller's false-branch on the returned flag is unreachable. -/
theorem returned_validation_result_always_valid (e : Event) (reason : String)
    (now : Int) (res : ValidationResult)
    (h : validate_cancellation_reason e reason now = .ok res) :
    res.valid = true := by
  simp only [validate_cancellation_reason] at h
  split_ifs at h <;>
    · rw [Except.ok.injEq] at h
      exact h ▸ rfl

/-- C10 witness: the concrete early validation of `evFar` with an empty
reason returns `validResultFar`, whose `valid` field is true. -/
theorem returned_validation_result_always_valid_check :
    validate_cancellation_reason evFar "" 0 = .ok validResultFar ∧
    validResultFar.valid = true :=
  have hok : validate_cancellation_reason evFar "" 0 = .ok validResultFar := by
    have h100 : hoursUntilEvent evFar.starts_at 0 = 100 := by
      norm_num [hoursUntilEvent, evFar, evSched]
    have hnl : ¬ ((100 : Rat) < 24) := by norm_num
    simp [validate_cancellation_reason, h100, decide_eq_false hnl,
      validResultFar]
  ⟨hok, returned_validation_result_always_valid evFar "" 0 validResultFar hok⟩
